import Mathlib

/-!
Verification of the prompt-assembly core and file-backed state of the
Lyra prompt application (`lyra_app.py`).

Conventions of the embedding:
* Python strings are Lean `String`; Python `str.strip()` is the `strip`
  function below (surrounding whitespace removed from both ends).
* The ordered `answers` dict (Python dicts preserve insertion order) is a
  `List (String × String)`; dict truthiness is `≠ []`.
* `"\n".join(lines)` is `String.intercalate "\n" lines`.
* File-backed state (the session-history CSV, the template CSV) is passed
  explicitly: a file is `Option` (absent / present), and a present file
  whose parse may fail is `Except String` of its parsed rows.
-/

/-- Python `str.strip()`: remove whitespace characters from both ends of the
string, leaving interior characters untouched.  (`Char.isWhitespace` covers
space, tab, carriage return and newline, the whitespace that can actually be
typed into the form fields.) -/
def strip (s : String) : String :=
  ⟨((s.data.dropWhile Char.isWhitespace).reverse.dropWhile Char.isWhitespace).reverse⟩

/-- One rendered answer bullet: the f-string `f"- {k}: {v}"` of the source. -/
def answerLine (kv : String × String) : String :=
  "- " ++ kv.fst ++ ": " ++ kv.snd

/-- Embedding of `build_prompt` (lyra_app.py lines 92-126): the list of
lines is assembled exactly in the source order of the `lines.append` calls
and joined with newlines. -/
def build_prompt (rough target_ai mode : String)
    (answers_dict : List (String × String)) (tokens extras : String) : String :=
  if strip rough = "" then ""
  else
    String.intercalate "\n"
      (["You are Lyra, optimizing a user request for " ++ target_ai ++ ".",
        "Follow the 4-D method: Deconstruct, Diagnose, Develop, Deliver.",
        "Return a final, ready-to-run prompt for the target AI.",
        "",
        "=== INPUT ===",
        strip rough,
        ""]
       ++ (if mode = "DETAIL" ∧ answers_dict ≠ [] then
             "=== USER ANSWERS ===" :: (answers_dict.map answerLine ++ [""])
           else [])
       ++ ["=== REQUIREMENTS ==="]
       ++ (if strip tokens ≠ "" then ["- Max length/tokens: " ++ strip tokens] else [])
       ++ (if strip extras ≠ "" then ["- Special constraints: " ++ strip extras] else [])
       ++ ["- Output must be specific, unambiguous, and formatted for easy copy-paste.",
           "",
           "=== DELIVERABLE FORMAT ===",
           "**Your Optimized Prompt:**",
           "[Write the improved prompt here]",
           "",
           "**Key Improvements:**",
           "• Bullet point 1",
           "• Bullet point 2",
           "",
           "**Techniques Applied:** Chain-of-thought (internal), role assignment, context layering, output specs.",
           "",
           "**Pro Tip:** Suggest how to iterate if the first output isn\x27t perfect."])

/-- `tailJoin s [a, b, ...] = s ++ a ++ s ++ b ++ ...`: the tail part of a
string join. -/
def tailJoin (s : String) : List String → String
  | [] => ""
  | a :: as => s ++ a ++ tailJoin s as

/-- Structural form of `"\n".join`: first line, then each further line
preceded by a newline. -/
def joinNL (l : List String) : String :=
  match l with
  | [] => ""
  | a :: as => a ++ tailJoin "\n" as

/-- Spec §4.2 item 1: the three-line preamble section. -/
def preamble (target_ai : String) : String :=
  "You are Lyra, optimizing a user request for " ++ target_ai ++ "." ++ "\n" ++
  "Follow the 4-D method: Deconstruct, Diagnose, Develop, Deliver." ++ "\n" ++
  "Return a final, ready-to-run prompt for the target AI."

/-- Spec §4.2 item 2: the INPUT section, holding the trimmed rough idea
verbatim. -/
def inputSection (rough : String) : String :=
  "=== INPUT ===" ++ "\n" ++ strip rough

/-- Spec §4.2 item 3: the USER ANSWERS section, one `- <slot>: <value>` line
per answer, in mapping order. -/
def userAnswersSection (answers : List (String × String)) : String :=
  "=== USER ANSWERS ===" ++ "\n" ++ joinNL (answers.map answerLine)

/-- Spec §4.2 item 4: the REQUIREMENTS section with its two conditional
bullets and fixed closing bullet. -/
def requirementsSection (tokens extras : String) : String :=
  "=== REQUIREMENTS ===" ++
  (if strip tokens ≠ "" then "\n" ++ ("- Max length/tokens: " ++ strip tokens) else "") ++
  (if strip extras ≠ "" then "\n" ++ ("- Special constraints: " ++ strip extras) else "") ++
  "\n" ++ "- Output must be specific, unambiguous, and formatted for easy copy-paste."

/-- Spec §4.2 item 5: the fixed DELIVERABLE FORMAT section. -/
def deliverableSection : String :=
  "=== DELIVERABLE FORMAT ===" ++ "\n" ++
  "**Your Optimized Prompt:**" ++ "\n" ++
  "[Write the improved prompt here]" ++ "\n" ++ "\n" ++
  "**Key Improvements:**" ++ "\n" ++
  "• Bullet point 1" ++ "\n" ++
  "• Bullet point 2" ++ "\n" ++ "\n" ++
  "**Techniques Applied:** Chain-of-thought (internal), role assignment, context layering, output specs." ++ "\n" ++ "\n" ++
  "**Pro Tip:** Suggest how to iterate if the first output isn\x27t perfect."

/-- The document shape produced when the USER ANSWERS section is absent. -/
def promptWithoutAnswers (rough target_ai tokens extras : String) : String :=
  preamble target_ai ++ "\n\n" ++ inputSection rough ++ "\n\n" ++
  requirementsSection tokens extras ++ "\n\n" ++ deliverableSection

/-- A row of the session-history CSV (lyra_app.py lines 145-154). -/
structure SessionLogRow where
  timestamp : String
  target_ai : String
  mode : String
  rough : String
  answers_json : String
  tokens : String
  extras : String
  optimized_len : Nat
deriving DecidableEq

/-- `json.dumps` on the answers mapping (line 150).  Escaping of special
characters inside keys or values is not modelled; no property below inspects
the serialized text. -/
def answersJson (answers : List (String × String)) : String :=
  "\x7b" ++
  String.intercalate ", "
    (answers.map (fun kv => "\"" ++ kv.fst ++ "\": \"" ++ kv.snd ++ "\"")) ++
  "\x7d"

/-- The row built for one auto-saved render (lines 145-154): the timestamp
comes from the clock, `optimized_len` is the character count of the assembled
prompt. -/
def mkRow (ts target_ai mode rough : String) (answers : List (String × String))
    (tokens extras : String) (optimized : String) : SessionLogRow :=
  { timestamp := ts, target_ai := target_ai, mode := mode, rough := rough,
    answers_json := answersJson answers, tokens := tokens, extras := extras,
    optimized_len := optimized.length }

/-- One render restricted to the assembler call and the history append
(lines 128 and 144-160): returns the displayed prompt and the new log rows.
A row is appended only when auto-save is on and the prompt is non-empty; a
missing log file is the empty row list, an existing one is read fully and
rewritten with the row appended. -/
def render (ts rough target_ai mode : String) (answers : List (String × String))
    (tokens extras : String) (export_history : Bool) (log : List SessionLogRow) :
    String × List SessionLogRow :=
  let optimized := build_prompt rough target_ai mode answers tokens extras
  (optimized,
    if export_history ∧ optimized ≠ "" then
      log ++ [mkRow ts target_ai mode rough answers tokens extras optimized]
    else log)

/-- The form inputs of one render call. -/
structure RenderCall where
  ts : String
  rough : String
  target_ai : String
  mode : String
  answers : List (String × String)
  tokens : String
  extras : String
deriving DecidableEq

/-- The log row one call contributes. -/
def rowOf (c : RenderCall) : SessionLogRow :=
  mkRow c.ts c.target_ai c.mode c.rough c.answers c.tokens c.extras
    (build_prompt c.rough c.target_ai c.mode c.answers c.tokens c.extras)

/-- A sequence of auto-saved renders folded over the log contents. -/
def runRenders : List RenderCall → List SessionLogRow → List SessionLogRow
  | [], log => log
  | c :: cs, log =>
      runRenders cs
        (render c.ts c.rough c.target_ai c.mode c.answers c.tokens c.extras true log).snd

/-- `DataFrame.tail(k)` (line 164): the last `min(k, N)` rows, oldest first. -/
def tailRows (k : Nat) (rows : List SessionLogRow) : List SessionLogRow :=
  rows.drop (rows.length - k)

/-- What the output column and the history block of the page show. -/
structure AppView where
  promptShown : String
  txtData : String
  txtName : String
  txtDisabled : Bool
  mdData : String
  mdName : String
  mdDisabled : Bool
  historyView : Except String (List SessionLogRow)

/-- The module-level script from the assembler call onward (lines 128-166),
with the page widgets as explicit data and the history file passed in and
out.  The history file is `none` when absent, `some (Except.error e)` when
present but unreadable or unparseable, `some (Except.ok rows)` otherwise.
The prompt display and the two download widgets are produced by lines
128-138, before the history block runs, so they never depend on the file;
a malformed file makes the read step fail, which reaches the page as a
failed history view while the earlier widgets stay in place and the file is
left as it was. -/
def runApp (rough target_ai mode : String) (answers : List (String × String))
    (tokens extras : String) (export_history : Bool) (ts : String)
    (logFile : Option (Except String (List SessionLogRow))) :
    AppView × Option (Except String (List SessionLogRow)) :=
  let optimized := build_prompt rough target_ai mode answers tokens extras
  let newFile :=
    if export_history ∧ optimized ≠ "" then
      match logFile with
      | none =>
          some (Except.ok [mkRow ts target_ai mode rough answers tokens extras optimized])
      | some (Except.ok rows) =>
          some (Except.ok (rows ++ [mkRow ts target_ai mode rough answers tokens extras optimized]))
      | some (Except.error e) => some (Except.error e)
    else logFile
  let historyView : Except String (List SessionLogRow) :=
    match newFile with
    | none => Except.ok []
    | some (Except.ok rows) => Except.ok (tailRows 20 rows)
    | some (Except.error e) => Except.error e
  ({ promptShown :=
       if optimized = "" then "← Start by typing a rough prompt on the left." else optimized,
     txtData := optimized, txtName := "optimized_prompt.txt",
     txtDisabled := optimized == "",
     mdData := optimized, mdName := "optimized_prompt.md",
     mdDisabled := optimized == "",
     historyView := historyView }, newFile)

/-- A template row (templates.csv columns, lines 14-16). -/
structure Template where
  id : Int
  category : String
  rough_idea : String
  tags : String
  suggested_questions : String
deriving DecidableEq

/-- Template-store load (lines 12-16): the file passed as its parsed rows
when it exists; absence yields the empty store, not an error. -/
def loadTemplateStore : Option (List Template) → List Template
  | none => []
  | some rows => rows

/-- The category list of the sidebar (line 33): distinct category values in
sorted order. -/
def listCategories (ts : List Template) : List String :=
  ((ts.map fun t => t.category).eraseDups).mergeSort (fun a b => a ≤ b)

/-- The DETAIL-mode answers dict (lines 76-79): fixed slots A1..A3 in order,
keeping exactly the entries whose value does not strip to empty, each kept
value verbatim. -/
def collect_answers (q1 q2 q3 : String) : List (String × String) :=
  ([("A1", q1), ("A2", q2), ("A3", q3)] : List (String × String)).filter
    (fun kv => decide (strip kv.snd ≠ ""))

/-- Concrete render call used as evaluation input. -/
def callA : RenderCall :=
  { ts := "2026-10-12T00:00:00", rough := "sales email", target_ai := "ChatGPT",
    mode := "BASIC", answers := [], tokens := "", extras := "" }

/-- Second concrete render call used as evaluation input. -/
def callB : RenderCall :=
  { ts := "2026-10-12T00:05:00", rough := "blog post", target_ai := "Claude",
    mode := "BASIC", answers := [], tokens := "", extras := "" }

/-- C1: an empty (after trimming) rough idea yields the empty string, whatever
the other arguments are; no partial document is produced. -/
theorem build_prompt_empty_rough (rough target_ai mode : String)
    (answers_dict : List (String × String)) (tokens extras : String)
    (h : strip rough = "") :
    build_prompt rough target_ai mode answers_dict tokens extras = "" := by
  unfold build_prompt
  rw [if_pos h]

/-- Witness for C1 at a whitespace-only rough idea. -/
theorem build_prompt_empty_rough_witness :
    build_prompt "  \n " "ChatGPT" "DETAIL" [("A1", "aud")] "200" "tone" = "" :=
  build_prompt_empty_rough "  \n " "ChatGPT" "DETAIL" [("A1", "aud")] "200" "tone"
    (by decide)

/-- Evaluating `String.intercalate.go`: the accumulator is a prefix of the
result. -/
theorem intercalate_go_eq (s : String) (l : List String) (acc : String) :
    String.intercalate.go acc s l = acc ++ tailJoin s l := by
  induction l generalizing acc with
  | nil => simp [String.intercalate.go, tailJoin]
  | cons a as ih =>
      simp [String.intercalate.go, tailJoin, ih, String.append_assoc]

/-- `"\n".join` in structural form. -/
theorem intercalate_eq_joinNL (l : List String) :
    String.intercalate "\n" l = joinNL l := by
  cases l with
  | nil => rfl
  | cons a as => simp [String.intercalate, joinNL, intercalate_go_eq]

/-- `tailJoin` distributes over list append. -/
theorem tailJoin_append (s : String) (xs ys : List String) :
    tailJoin s (xs ++ ys) = tailJoin s xs ++ tailJoin s ys := by
  induction xs with
  | nil => simp [tailJoin]
  | cons a as ih => simp [tailJoin, ih, String.append_assoc]

/-- A blank-line separator is two newlines. -/
theorem two_nl : "\n\n" = ("\n" : String) ++ "\n" := rfl

/-- Structure of every non-empty assembled document: the five fixed sections
in order, each separated by a blank line, the USER ANSWERS section present
exactly under the DETAIL-and-answers condition. -/
theorem build_prompt_decomp (rough target_ai mode : String)
    (answers : List (String × String)) (tokens extras : String)
    (h : strip rough ≠ "") :
    build_prompt rough target_ai mode answers tokens extras =
      preamble target_ai ++ "\n\n" ++ inputSection rough ++ "\n\n" ++
      (if mode = "DETAIL" ∧ answers ≠ [] then userAnswersSection answers ++ "\n\n" else "") ++
      requirementsSection tokens extras ++ "\n\n" ++ deliverableSection := by
  unfold build_prompt
  rw [if_neg h, intercalate_eq_joinNL, two_nl]
  by_cases ha : mode = "DETAIL" ∧ answers ≠ []
  · obtain ⟨a, as, rfl⟩ := List.exists_cons_of_ne_nil ha.2
    rw [if_pos ha, if_pos ha]
    by_cases ht : strip tokens ≠ "" <;> by_cases he : strip extras ≠ "" <;>
      simp [ht, he, joinNL, tailJoin, tailJoin_append, List.map_cons,
        preamble, inputSection, userAnswersSection, requirementsSection,
        deliverableSection, String.append_assoc, -String.reduceAppend]
  · rw [if_neg ha, if_neg ha]
    by_cases ht : strip tokens ≠ "" <;> by_cases he : strip extras ≠ "" <;>
      simp [ht, he, joinNL, tailJoin, tailJoin_append,
        preamble, inputSection, userAnswersSection, requirementsSection,
        deliverableSection, String.append_assoc, -String.reduceAppend]

/-- Stripping only removes characters at the two ends: the stripped text is a
contiguous substring of the original. -/
theorem strip_infix (s : String) : (strip s).data <:+: s.data := by
  have h1 : (s.data.dropWhile Char.isWhitespace) <:+ s.data :=
    List.dropWhile_suffix _
  have h2 : (strip s).data <+: s.data.dropWhile Char.isWhitespace := by
    show ((s.data.dropWhile Char.isWhitespace).reverse.dropWhile
      Char.isWhitespace).reverse <+: s.data.dropWhile Char.isWhitespace
    have h3 : ((s.data.dropWhile Char.isWhitespace).reverse.dropWhile
        Char.isWhitespace) <:+ (s.data.dropWhile Char.isWhitespace).reverse :=
      List.dropWhile_suffix _
    obtain ⟨u, hu⟩ := h3
    refine ⟨u.reverse, ?_⟩
    have := congrArg List.reverse hu
    simpa using this
  obtain ⟨t, ht⟩ := h2
  obtain ⟨u, hu⟩ := h1
  exact ⟨u, t, by rw [← hu, ← ht, List.append_assoc]⟩

/-- C2: for a non-empty trimmed rough idea the output is exactly the fixed
sections in order — preamble, INPUT, conditional USER ANSWERS, REQUIREMENTS,
DELIVERABLE FORMAT — separated by blank lines, the INPUT section carrying the
trimmed rough idea verbatim (a contiguous substring of the original, so its
internal whitespace is untouched). -/
theorem build_prompt_sections (rough target_ai mode : String)
    (answers : List (String × String)) (tokens extras : String)
    (h : strip rough ≠ "") :
    build_prompt rough target_ai mode answers tokens extras =
      preamble target_ai ++ "\n\n" ++
      ("=== INPUT ===" ++ "\n" ++ strip rough) ++ "\n\n" ++
      (if mode = "DETAIL" ∧ answers ≠ [] then userAnswersSection answers ++ "\n\n" else "") ++
      requirementsSection tokens extras ++ "\n\n" ++ deliverableSection
    ∧ (strip rough).data <:+: rough.data := by
  exact ⟨build_prompt_decomp rough target_ai mode answers tokens extras h,
    strip_infix rough⟩

/-- Witness for C2 at a concrete DETAIL-mode input. -/
theorem build_prompt_sections_witness :
    build_prompt " Write me a sales email \n" "ChatGPT" "DETAIL"
        [("A1", "Small business owners")] " 200 " "" =
      preamble "ChatGPT" ++ "\n\n" ++
      ("=== INPUT ===" ++ "\n" ++ strip " Write me a sales email \n") ++ "\n\n" ++
      (if ("DETAIL" : String) = "DETAIL" ∧
          ([("A1", "Small business owners")] : List (String × String)) ≠ [] then
        userAnswersSection [("A1", "Small business owners")] ++ "\n\n"
      else "") ++
      requirementsSection " 200 " "" ++ "\n\n" ++ deliverableSection
    ∧ (strip " Write me a sales email \n").data <:+:
        (" Write me a sales email \n" : String).data :=
  build_prompt_sections " Write me a sales email \n" "ChatGPT" "DETAIL"
    [("A1", "Small business owners")] " 200 " "" (by decide)

/-- C3: the USER ANSWERS section is emitted iff `mode = "DETAIL"` and the
answers mapping is non-empty; when present it lists each answer as
`- <slot>: <value>` in mapping order, and the document genuinely differs from
the answerless shape; it is never emitted in BASIC mode. -/
theorem build_prompt_user_answers_iff (rough target_ai mode : String)
    (answers : List (String × String)) (tokens extras : String)
    (h : strip rough ≠ "") :
    ((mode = "DETAIL" ∧ answers ≠ []) →
      build_prompt rough target_ai mode answers tokens extras =
        preamble target_ai ++ "\n\n" ++ inputSection rough ++ "\n\n" ++
        (("=== USER ANSWERS ===" ++ "\n" ++ joinNL (answers.map answerLine)) ++ "\n\n") ++
        requirementsSection tokens extras ++ "\n\n" ++ deliverableSection ∧
      build_prompt rough target_ai mode answers tokens extras ≠
        promptWithoutAnswers rough target_ai tokens extras) ∧
    (¬(mode = "DETAIL" ∧ answers ≠ []) →
      build_prompt rough target_ai mode answers tokens extras =
        promptWithoutAnswers rough target_ai tokens extras) ∧
    (mode = "BASIC" →
      build_prompt rough target_ai mode answers tokens extras =
        promptWithoutAnswers rough target_ai tokens extras) := by
  have hd := build_prompt_decomp rough target_ai mode answers tokens extras h
  have habs : ¬(mode = "DETAIL" ∧ answers ≠ []) →
      build_prompt rough target_ai mode answers tokens extras =
        promptWithoutAnswers rough target_ai tokens extras := by
    intro hc
    rw [hd, if_neg hc]
    simp only [String.append_empty]
    rfl
  refine ⟨fun hc => ⟨?_, ?_⟩, habs, fun hb => habs ?_⟩
  · rw [hd, if_pos hc]
    rfl
  · rw [hd, if_pos hc]
    intro heq
    have hlen := congrArg String.length heq
    simp only [promptWithoutAnswers, userAnswersSection, String.length_append,
      show ("\n\n" : String).length = 2 from rfl,
      show ("=== USER ANSWERS ===" : String).length = 20 from rfl,
      show ("\n" : String).length = 1 from rfl] at hlen
    omega
  · intro hcon
    subst hb
    exact absurd hcon.1 (by decide)

/-- Witness for C3: in DETAIL mode with two answers the section is emitted
with the two bullets in mapping order. -/
theorem build_prompt_user_answers_iff_witness :
    build_prompt "Write me a sales email" "ChatGPT" "DETAIL"
        [("A1", "Small business owners"), ("A2", "Book a demo call")] "" "" =
      preamble "ChatGPT" ++ "\n\n" ++ inputSection "Write me a sales email" ++ "\n\n" ++
      (("=== USER ANSWERS ===" ++ "\n" ++
        joinNL (([("A1", "Small business owners"), ("A2", "Book a demo call")] :
          List (String × String)).map answerLine)) ++ "\n\n") ++
      requirementsSection "" "" ++ "\n\n" ++ deliverableSection :=
  ((build_prompt_user_answers_iff "Write me a sales email" "ChatGPT" "DETAIL"
      [("A1", "Small business owners"), ("A2", "Book a demo call")] "" ""
      (by decide)).1 ⟨rfl, by decide⟩).1

/-- C4: the REQUIREMENTS section is always present; its max-length bullet is
there exactly when the trimmed max-length field is non-empty, its
special-constraints bullet exactly when the trimmed extra instructions are
non-empty, and its closing bullet always. -/
theorem build_prompt_requirements (rough target_ai mode : String)
    (answers : List (String × String)) (tokens extras : String)
    (h : strip rough ≠ "") :
    build_prompt rough target_ai mode answers tokens extras =
      preamble target_ai ++ "\n\n" ++ inputSection rough ++ "\n\n" ++
      (if mode = "DETAIL" ∧ answers ≠ [] then userAnswersSection answers ++ "\n\n" else "") ++
      ("=== REQUIREMENTS ===" ++
        (if strip tokens ≠ "" then "\n" ++ ("- Max length/tokens: " ++ strip tokens) else "") ++
        (if strip extras ≠ "" then "\n" ++ ("- Special constraints: " ++ strip extras) else "") ++
        "\n" ++ "- Output must be specific, unambiguous, and formatted for easy copy-paste.") ++
      "\n\n" ++ deliverableSection := by
  rw [build_prompt_decomp rough target_ai mode answers tokens extras h]
  rfl

/-- Witness for C4 with a max-length constraint and special instructions. -/
theorem build_prompt_requirements_witness :
    build_prompt "Write me a sales email" "ChatGPT" "BASIC" [] " 200 " "friendly tone" =
      preamble "ChatGPT" ++ "\n\n" ++ inputSection "Write me a sales email" ++ "\n\n" ++
      (if ("BASIC" : String) = "DETAIL" ∧ ([] : List (String × String)) ≠ [] then
        userAnswersSection [] ++ "\n\n" else "") ++
      ("=== REQUIREMENTS ===" ++
        (if strip " 200 " ≠ "" then "\n" ++ ("- Max length/tokens: " ++ strip " 200 ") else "") ++
        (if strip "friendly tone" ≠ "" then
          "\n" ++ ("- Special constraints: " ++ strip "friendly tone") else "") ++
        "\n" ++ "- Output must be specific, unambiguous, and formatted for easy copy-paste.") ++
      "\n\n" ++ deliverableSection :=
  build_prompt_requirements "Write me a sales email" "ChatGPT" "BASIC" [] " 200 "
    "friendly tone" (by decide)

/-- C5: the assembler is deterministic and effect-free.  Within a render its
displayed output is exactly the pure `build_prompt` of the form inputs, two
renders with identical form inputs display byte-identical strings whatever
the clock, the log contents or the auto-save toggle are, and the assembler
call itself never changes the log (with auto-save off the log passes through
a render untouched). -/
theorem build_prompt_deterministic (rough target_ai mode : String)
    (answers : List (String × String)) (tokens extras : String)
    (ts ts2 : String) (log log2 : List SessionLogRow) (eh eh2 : Bool) :
    (render ts rough target_ai mode answers tokens extras eh log).fst =
      build_prompt rough target_ai mode answers tokens extras ∧
    (render ts rough target_ai mode answers tokens extras eh log).fst =
      (render ts2 rough target_ai mode answers tokens extras eh2 log2).fst ∧
    (render ts rough target_ai mode answers tokens extras false log).snd = log := by
  refine ⟨rfl, rfl, ?_⟩
  simp [render]

/-- C6: starting from an empty log, `N` auto-saved renders that each produce
a non-empty prompt leave exactly the `N` rows of those calls, in call order,
with no reordering or deduplication; the tail view returns the last
`min(k, N)` of them, oldest first. -/
theorem log_append_monotone (calls : List RenderCall) (k : Nat)
    (h : ∀ c ∈ calls,
      build_prompt c.rough c.target_ai c.mode c.answers c.tokens c.extras ≠ "") :
    runRenders calls [] = calls.map rowOf ∧
    tailRows k (runRenders calls []) = (calls.map rowOf).drop (calls.length - k) ∧
    (tailRows k (runRenders calls [])).length = min k calls.length := by
  have key : ∀ (cs : List RenderCall) (log : List SessionLogRow),
      (∀ c ∈ cs,
        build_prompt c.rough c.target_ai c.mode c.answers c.tokens c.extras ≠ "") →
      runRenders cs log = log ++ cs.map rowOf := by
    intro cs
    induction cs with
    | nil => intro log _; simp [runRenders]
    | cons c cs ih =>
        intro log hcs
        have hc : build_prompt c.rough c.target_ai c.mode c.answers c.tokens c.extras ≠ "" :=
          hcs c (List.mem_cons_self c cs)
        have hstep :
            (render c.ts c.rough c.target_ai c.mode c.answers c.tokens c.extras true log).snd
              = log ++ [rowOf c] := by
          simp [render, hc, rowOf]
        rw [runRenders, hstep, ih _ (fun d hd => hcs d (List.mem_cons_of_mem _ hd))]
        simp
  have hrr : runRenders calls [] = calls.map rowOf := by
    simpa using key calls [] h
  refine ⟨hrr, ?_, ?_⟩
  · rw [hrr]
    simp [tailRows]
  · rw [hrr]
    simp [tailRows]
    omega

/-- Witness for C6 with two concrete renders and `k = 1`. -/
theorem log_append_monotone_witness :
    runRenders [callA, callB] [] = [rowOf callA, rowOf callB] ∧
    tailRows 1 (runRenders [callA, callB] []) = [rowOf callB] ∧
    (tailRows 1 (runRenders [callA, callB] [])).length = min 1 2 :=
  log_append_monotone [callA, callB] 1 (by decide)

/-- C7: with a malformed history file only the log feature fails.  The
displayed prompt equals the one shown with any other file state, the two
exports still carry the assembled prompt, the history view surfaces the
failure, and the file is left as it was. -/
theorem malformed_log_confined (rough target_ai mode : String)
    (answers : List (String × String)) (tokens extras : String)
    (eh : Bool) (ts e : String)
    (file2 : Option (Except String (List SessionLogRow))) :
    (runApp rough target_ai mode answers tokens extras eh ts
        (some (Except.error e))).fst.promptShown =
      (runApp rough target_ai mode answers tokens extras eh ts file2).fst.promptShown ∧
    (runApp rough target_ai mode answers tokens extras eh ts
        (some (Except.error e))).fst.txtData =
      build_prompt rough target_ai mode answers tokens extras ∧
    (runApp rough target_ai mode answers tokens extras eh ts
        (some (Except.error e))).fst.mdData =
      build_prompt rough target_ai mode answers tokens extras ∧
    (runApp rough target_ai mode answers tokens extras eh ts
        (some (Except.error e))).fst.historyView = Except.error e ∧
    (runApp rough target_ai mode answers tokens extras eh ts
        (some (Except.error e))).snd = some (Except.error e) := by
  refine ⟨rfl, rfl, rfl, ?_, ?_⟩ <;>
  · simp only [runApp, ite_self]

/-- C9: the two export actions of one render offer byte-identical content —
the assembled prompt itself — and differ only in the suggested filename. -/
theorem exports_identical (rough target_ai mode : String)
    (answers : List (String × String)) (tokens extras : String)
    (eh : Bool) (ts : String)
    (logFile : Option (Except String (List SessionLogRow))) :
    (runApp rough target_ai mode answers tokens extras eh ts logFile).fst.txtData =
      (runApp rough target_ai mode answers tokens extras eh ts logFile).fst.mdData ∧
    (runApp rough target_ai mode answers tokens extras eh ts logFile).fst.txtData =
      build_prompt rough target_ai mode answers tokens extras ∧
    (runApp rough target_ai mode answers tokens extras eh ts logFile).fst.txtName =
      "optimized_prompt.txt" ∧
    (runApp rough target_ai mode answers tokens extras eh ts logFile).fst.mdName =
      "optimized_prompt.md" :=
  ⟨rfl, rfl, rfl, rfl⟩

/-- C8: when the template file is absent the store loads as zero templates
and the category list is empty, with no error raised (the load is total). -/
theorem template_store_absent :
    loadTemplateStore none = [] ∧ listCategories (loadTemplateStore none) = [] := by
  constructor
  · rfl
  · simp [listCategories, loadTemplateStore, List.eraseDups, List.eraseDups.loop,
      List.mergeSort_nil]

/-- C10: answer values are filtered by their stripped form but kept verbatim:
the DETAIL-mode answers mapping keeps, in slot order, exactly the entries
whose value does not strip to empty, each with its value exactly as typed;
and those verbatim values are what the USER ANSWERS section renders. -/
theorem answers_filtered_verbatim (q1 q2 q3 rough target_ai tokens extras : String)
    (h : strip rough ≠ "") (hne : collect_answers q1 q2 q3 ≠ []) :
    collect_answers q1 q2 q3 =
      (if strip q1 ≠ "" then [("A1", q1)] else []) ++
      (if strip q2 ≠ "" then [("A2", q2)] else []) ++
      (if strip q3 ≠ "" then [("A3", q3)] else []) ∧
    build_prompt rough target_ai "DETAIL" (collect_answers q1 q2 q3) tokens extras =
      preamble target_ai ++ "\n\n" ++ inputSection rough ++ "\n\n" ++
      (("=== USER ANSWERS ===" ++ "\n" ++
        joinNL ((collect_answers q1 q2 q3).map answerLine)) ++ "\n\n") ++
      requirementsSection tokens extras ++ "\n\n" ++ deliverableSection := by
  constructor
  · by_cases h1 : strip q1 ≠ "" <;> by_cases h2 : strip q2 ≠ "" <;>
      by_cases h3 : strip q3 ≠ "" <;>
      simp [collect_answers, List.filter, h1, h2, h3]
  · rw [build_prompt_decomp rough target_ai "DETAIL" (collect_answers q1 q2 q3)
      tokens extras h, if_pos ⟨rfl, hne⟩]
    rfl

/-- Witness for C10: one answer with surrounding whitespace is kept verbatim,
a whitespace-only answer is dropped. -/
theorem answers_filtered_verbatim_witness :
    collect_answers " Small business owners " "   " "Book a demo call" =
      (if strip " Small business owners " ≠ "" then [("A1", " Small business owners ")] else []) ++
      (if strip "   " ≠ "" then [("A2", "   ")] else []) ++
      (if strip "Book a demo call" ≠ "" then [("A3", "Book a demo call")] else []) ∧
    build_prompt "sales email" "ChatGPT" "DETAIL"
        (collect_answers " Small business owners " "   " "Book a demo call") "" "" =
      preamble "ChatGPT" ++ "\n\n" ++ inputSection "sales email" ++ "\n\n" ++
      (("=== USER ANSWERS ===" ++ "\n" ++
        joinNL ((collect_answers " Small business owners " "   " "Book a demo call").map
          answerLine)) ++ "\n\n") ++
      requirementsSection "" "" ++ "\n\n" ++ deliverableSection :=
  answers_filtered_verbatim " Small business owners " "   " "Book a demo call"
    "sales email" "ChatGPT" "" "" (by decide) (by decide)
